import Mathlib

/-!
Verification of the keypoint-to-motion-constants pipeline in
`src/skills/pose-engine-locomotion/scripts/openpose_frames_to_motion_constants.py`.

Shallow embedding conventions:
* Python floats are modelled as exact rationals (ℚ); the pipeline's float
  arithmetic is treated as exact arithmetic.  Float literals such as `0.42`,
  `2.1`, `1e-6` become the corresponding rationals (`42/100`, `21/10`,
  `1/1000000`).
* Python exceptions are modelled with `Except`: an `IndexError` raised by
  out-of-range list indexing in `_part` is `PErr.indexError`, the explicit
  `ValueError` raised by `derive_motion_constants` is `PErr.valueError`.
* `sorted(...)` and the sort inside `statistics.median` are modelled by
  `List.insertionSort (· ≤ ·)`: on a linearly ordered type of plain values
  any sorting algorithm produces the same list, so this is faithful to
  Python's `sorted`.
* `round(v, 2)` is Python3 bankers rounding (round-half-to-even) to two
  decimal places, modelled exactly on ℚ by `round2`.
-/

namespace Pose

/-- Python exception classes that the modelled code can raise. -/
inductive PErr where
  | indexError : PErr
  | valueError : PErr
deriving DecidableEq

/-- `COCO_PARTS` from the source: the 18 canonical body parts, in order. -/
def COCO_PARTS : List String :=
  ["nose", "neck", "r_shoulder", "r_elbow", "r_wrist", "l_shoulder",
   "l_elbow", "l_wrist", "r_hip", "r_knee", "r_ankle", "l_hip",
   "l_knee", "l_ankle", "r_eye", "l_eye", "r_ear", "l_ear"]

/-- The `XYC` tuple type from the source: an (x, y, confidence) keypoint. -/
structure XYC where
  x : ℚ
  y : ℚ
  c : ℚ
deriving DecidableEq

/-- `_clamp(value, lo, hi) = max(lo, min(hi, value))` from the source. -/
def clamp (value lo hi : ℚ) : ℚ := max lo (min hi value)

/-- Python3 round-half-to-even of a rational to an integer. -/
def roundHalfEven (q : ℚ) : ℤ :=
  if q - (⌊q⌋ : ℚ) < 1/2 then ⌊q⌋
  else if 1/2 < q - (⌊q⌋ : ℚ) then ⌊q⌋ + 1
  else if ⌊q⌋ % 2 = 0 then ⌊q⌋ else ⌊q⌋ + 1

/-- `round(v, 2)` from the source: round to 2 decimal places, ties to even. -/
def round2 (q : ℚ) : ℚ := (roundHalfEven (q * 100) : ℚ) / 100

/-- `_median(values, fallback)` from the source.  `statistics.median` sorts the
values and returns the middle element (odd length) or the mean of the two
middle elements (even length); the empty list yields the fallback.  The
source's `isinstance` filter is the identity here because every value is
already a number in this embedding. -/
def pymedian : List ℚ → ℚ → ℚ
  | [], fallback => fallback
  | v :: rest, _ =>
    let s := (v :: rest).insertionSort (fun a b => a ≤ b)
    let n := (v :: rest).length
    if n % 2 = 1 then s.getD (n / 2) 0
    else (s.getD (n / 2 - 1) 0 + s.getD (n / 2) 0) / 2

/-- `_stride_stats(hip_x)` from the source: signed frame-to-frame deltas of
the hip x series, the median of the absolute deltas above the `1e-6` noise
floor (fallback `30.0`) scaled by `2.1` gives the walk stride; the run stride
is `walk_stride * 1.65`. -/
def stride_stats (hip_x : List ℚ) : ℚ × ℚ :=
  let deltas := (hip_x.zip hip_x.tail).map (fun p => p.2 - p.1)
  let abs_deltas := (deltas.filter (fun d => 1/1000000 < |d|)).map (fun d => |d|)
  let walk_stride := pymedian abs_deltas 30 * (21/10)
  (walk_stride, walk_stride * (165/100))

/-- The sorted absolute frame-to-frame deltas of `hip_x`, as computed by the
first line of `_dash_distance`. -/
def sortedAbsDeltas (hip_x : List ℚ) : List ℚ :=
  ((hip_x.zip hip_x.tail).map (fun p => |p.2 - p.1|)).insertionSort (fun a b => a ≤ b)

/-- `_dash_distance(hip_x)` from the source: `64.0` when there are no deltas,
otherwise `max(48.0, deltas[int(0.9 * (len(deltas) - 1))] * 4.5)` over the
sorted absolute deltas (Python `int()` truncates; the argument is
nonnegative here, so it is the floor). -/
def dash_distance (hip_x : List ℚ) : ℚ :=
  match sortedAbsDeltas hip_x with
  | [] => 64
  | d :: rest =>
    let deltas := d :: rest
    let p90_index := (⌊(9/10 : ℚ) * ((deltas.length : ℚ) - 1)⌋).toNat
    max 48 (deltas.getD p90_index 0 * (9/2))

/-- `_part(frame, name)` from the source: read the `(x, y, c)` triple at index
`COCO_PARTS.index(name) * 3`; confidence `c ≤ 0` means the joint is absent
(`None`).  Out-of-range indexing is Python's `IndexError`. -/
def part (frame : List ℚ) (name : String) : Except PErr (Option XYC) :=
  let idx := COCO_PARTS.indexOf name * 3
  match frame[idx]?, frame[idx + 1]?, frame[idx + 2]? with
  | some x, some y, some c =>
      .ok (if c ≤ 0 then none else some ⟨x, y, c⟩)
  | _, _, _ => .error .indexError

/-- `_midpoint(a, b, min_conf)` from the source: both joints must be present
and both confidences at least `min_conf` (a strict `<` test rejects), else no
midpoint sample is produced. -/
def midpoint (a b : Option XYC) (min_conf : ℚ) : Option (ℚ × ℚ) :=
  match a, b with
  | some a, some b =>
      if a.c < min_conf ∨ b.c < min_conf then none
      else some ((a.x + b.x) * (1/2), (a.y + b.y) * (1/2))
  | _, _ => none

/-- Prepend an optional element: the `if hip_mid: hip_midpoints.append(...)`
pattern from the frame loop of `derive_motion_constants`. -/
def consOpt (o : Option (ℚ × ℚ)) (l : List (ℚ × ℚ)) : List (ℚ × ℚ) :=
  match o with
  | some a => a :: l
  | none => l

/-- The frame loop of `derive_motion_constants`: per frame look up both hips
and both shoulders (propagating any indexing error) and collect the hip and
shoulder midpoint series in frame order. -/
def collectMidpoints (min_conf : ℚ) : List (List ℚ) →
    Except PErr (List (ℚ × ℚ) × List (ℚ × ℚ))
  | [] => .ok ([], [])
  | frame :: rest =>
    match part frame "l_hip" with
    | .error e => .error e
    | .ok l_hip =>
      match part frame "r_hip" with
      | .error e => .error e
      | .ok r_hip =>
        match part frame "l_shoulder" with
        | .error e => .error e
        | .ok l_shoulder =>
          match part frame "r_shoulder" with
          | .error e => .error e
          | .ok r_shoulder =>
            match collectMidpoints min_conf rest with
            | .error e => .error e
            | .ok (hips, shoulders) =>
                .ok (consOpt (midpoint l_hip r_hip min_conf) hips,
                     consOpt (midpoint l_shoulder r_shoulder min_conf) shoulders)

/-- Python `min` over a nonempty list (the empty case never occurs at the
call sites; `0` is a dummy). -/
def listMin : List ℚ → ℚ
  | [] => 0
  | x :: xs => xs.foldl min x

/-- Python `max` over a nonempty list (the empty case never occurs at the
call sites; `0` is a dummy). -/
def listMax : List ℚ → ℚ
  | [] => 0
  | x :: xs => xs.foldl max x

/-- The ten named output constants of `derive_motion_constants`, the keys of
the returned dictionary. -/
structure MotionConstants where
  WALK_SWING_FORWARD_PX : ℚ
  WALK_SWING_LIFT_PX : ℚ
  RUN_SWING_FORWARD_PX : ℚ
  RUN_SWING_LIFT_PX : ℚ
  JUMP_HEIGHT_PX : ℚ
  CROUCH_ROOT_DROP_PX : ℚ
  DASH_ROOT_ADVANCE_PX : ℚ
  DASH_FOOT_DRIVE_PX : ℚ
  ROOT_NUDGE_STEP_PX : ℚ
  REFERENCE_BODY_SPAN_PX : ℚ
deriving DecidableEq

/-- The constants dictionary of `derive_motion_constants`, built from the six
raw metrics: each entry is clamped to its declared range and rounded to two
decimal places (the source clamps while building the dict and rounds in the
final comprehension). -/
def mkConstants (walk_stride run_stride dash_dist jump_height_px
    crouch_drop_px upper_motion : ℚ) : MotionConstants :=
  { WALK_SWING_FORWARD_PX := round2 (clamp (walk_stride * (42/100)) 20 72)
    WALK_SWING_LIFT_PX := round2 (clamp (jump_height_px * (42/100) * (42/100)) 14 42)
    RUN_SWING_FORWARD_PX := round2 (clamp (run_stride * (42/100)) 34 112)
    RUN_SWING_LIFT_PX := round2 (clamp (jump_height_px * (42/100) * (58/100)) 20 64)
    JUMP_HEIGHT_PX := round2 (clamp (jump_height_px * (42/100)) 24 120)
    CROUCH_ROOT_DROP_PX := round2 (clamp (crouch_drop_px * (42/100)) 16 56)
    DASH_ROOT_ADVANCE_PX := round2 (clamp (dash_dist * (42/100)) 42 140)
    DASH_FOOT_DRIVE_PX := round2 (clamp (dash_dist * (42/100) * (1/2)) 24 74)
    ROOT_NUDGE_STEP_PX :=
      round2 (clamp (pymedian [|walk_stride * (42/100) * (18/100)|] 14) 8 26)
    REFERENCE_BODY_SPAN_PX := round2 (clamp upper_motion 40 240) }

/-- The statistics section of `derive_motion_constants`, applied to the
already-collected hip and shoulder midpoint series. -/
def deriveFrom (hip_midpoints shoulder_midpoints : List (ℚ × ℚ)) : MotionConstants :=
  let hip_x := hip_midpoints.map Prod.fst
  let hip_y := hip_midpoints.map Prod.snd
  let strides := stride_stats hip_x
  let dash_dist := dash_distance hip_x
  let baseline_hip_y := pymedian hip_y (hip_y.headD 0)
  let min_hip_y := listMin hip_y
  let max_hip_y := listMax hip_y
  let jump_height_px := max 12 (baseline_hip_y - min_hip_y)
  let crouch_drop_px := max 10 (max_hip_y - baseline_hip_y)
  let shoulder_y :=
    match shoulder_midpoints with
    | [] => hip_y
    | _ :: _ => shoulder_midpoints.map Prod.snd
  let upper_motion := pymedian
    ((List.range hip_y.length).map
      (fun i => |hip_y.getD i 0 - shoulder_y.getD (min i (shoulder_y.length - 1)) 0|))
    80
  mkConstants strides.1 strides.2 dash_dist jump_height_px crouch_drop_px upper_motion

/-- `derive_motion_constants(frames, min_conf)` from the source: collect the
midpoint series, raise `ValueError` when fewer than 2 hip samples survive the
confidence gate, and otherwise synthesize the ten constants. -/
def derive_motion_constants (frames : List (List ℚ)) (min_conf : ℚ) :
    Except PErr MotionConstants :=
  match collectMidpoints min_conf frames with
  | .error e => .error e
  | .ok (hip_midpoints, shoulder_midpoints) =>
      if hip_midpoints.length < 2 then .error .valueError
      else .ok (deriveFrom hip_midpoints shoulder_midpoints)

/-! ### Frame ingestion (`_load_frames` and helpers)

JSON-like values are modelled by `JVal`; Python dicts become association
lists (keys are unique in a Python dict, so first-match lookup is faithful).
-/

/-- A JSON-like Python value, as handled by the ingestion code. -/
inductive JVal where
  | null : JVal
  | bool : Bool → JVal
  | num : ℚ → JVal
  | str : String → JVal
  | arr : List JVal → JVal
  | obj : List (String × JVal) → JVal

/-- Python `dict.get(key)` on the association-list model of a dict. -/
def lookupField (fields : List (String × JVal)) (key : String) : Option JVal :=
  (fields.find? (fun p => p.1 == key)).map Prod.snd

/-- `float(v)` for a JSON-derived value: Python coerces ints, floats and
bools; everything else raises (`TypeError`/`ValueError`), which `none`
records.  (Numeric strings, which Python's `float` would also parse, are
conservatively modelled as coercion failures; no claim depends on them.) -/
def pyFloat : JVal → Option ℚ
  | .num q => some q
  | .bool b => some (if b then 1 else 0)
  | _ => none

/-- The list comprehension `[float(v) for v in arr]`: all-or-nothing
element-wise coercion; `none` models the exception escaping the
comprehension. -/
def coerceFloats : List JVal → Option (List ℚ)
  | [] => some []
  | v :: rest =>
    match pyFloat v, coerceFloats rest with
    | some q, some qs => some (q :: qs)
    | _, _ => none

/-- `_extract_people_entry(frame)` from the source: non-dicts yield `None`;
a dict with a `"people"` list uses its first element when that is a dict
(`None` when the list is empty or the element is not a dict); any other dict
is used directly as the person record. -/
def extract_people_entry : JVal → Option (List (String × JVal))
  | .obj fields =>
    match lookupField fields "people" with
    | some (.arr []) => none
    | some (.arr (p :: _)) =>
        match p with
        | .obj pf => some pf
        | _ => none
    | _ => some fields
  | _ => none

/-- The shape-validation part of `_extract_keypoints_array(frame)`: the person
record (dropped when `None` or an empty dict, both falsy under `if not
person`) must hold a `"pose_keypoints_2d"` list of at least
`len(COCO_PARTS) * 3 = 54` elements; the raw (uncoerced) list is returned. -/
def rawKeypointsArray (v : JVal) : Option (List JVal) :=
  match extract_people_entry v with
  | none => none
  | some [] => none
  | some fields =>
    match lookupField fields "pose_keypoints_2d" with
    | some (.arr a) => if a.length < COCO_PARTS.length * 3 then none else some a
    | _ => none

/-- `_extract_keypoints_array(frame)` from the source: shape validation
followed by element-wise `float` coercion, the only step that can raise. -/
def extract_keypoints_array (v : JVal) : Except Unit (Option (List ℚ)) :=
  match rawKeypointsArray v with
  | none => .ok none
  | some a =>
    match coerceFloats a with
    | some fs => .ok (some fs)
    | none => .error ()

/-- The shape dispatch at the top of `_load_frames(payload)`: a dict with a
`"frames"` list contributes those items, a bare list contributes its
elements, anything else is a single-item list. -/
def items_of (payload : JVal) : List JVal :=
  match payload with
  | .obj fields =>
    match lookupField fields "frames" with
    | some (.arr fs) => fs
    | _ => [payload]
  | .arr l => l
  | v => [v]

/-- The accumulation loop of `_load_frames`: extract each item's keypoint
array, keep it when truthy (a nonempty list), and propagate any coercion
exception. -/
def load_frames_aux : List JVal → Except Unit (List (List ℚ))
  | [] => .ok []
  | it :: rest =>
    match extract_keypoints_array it with
    | .error e => .error e
    | .ok none => load_frames_aux rest
    | .ok (some l) =>
      match load_frames_aux rest with
      | .error e => .error e
      | .ok tl =>
        match l with
        | [] => .ok tl
        | _ :: _ => .ok (l :: tl)

/-- `_load_frames(payload)` from the source. -/
def load_frames (payload : JVal) : Except Unit (List (List ℚ)) :=
  load_frames_aux (items_of payload)

/-! ### Pure views of the midpoint series

On frames long enough for every `_part` lookup (any frame of the canonical
length 54 is), `collectMidpoints` cannot raise, and the two collected series
are plain `filterMap`s over the frame list.  These pure views are what the
statements about the hip/shoulder series quantify over. -/

/-- The hip midpoint sample contributed by one frame (when the frame is long
enough for the lookups to succeed). -/
def hipMidOf (min_conf : ℚ) (frame : List ℚ) : Option (ℚ × ℚ) :=
  match part frame "l_hip", part frame "r_hip" with
  | .ok l_hip, .ok r_hip => midpoint l_hip r_hip min_conf
  | _, _ => none

/-- The shoulder midpoint sample contributed by one frame. -/
def shoulderMidOf (min_conf : ℚ) (frame : List ℚ) : Option (ℚ × ℚ) :=
  match part frame "l_shoulder", part frame "r_shoulder" with
  | .ok l_shoulder, .ok r_shoulder => midpoint l_shoulder r_shoulder min_conf
  | _, _ => none

/-- The hip midpoint series of a frame list. -/
def hipList (frames : List (List ℚ)) (min_conf : ℚ) : List (ℚ × ℚ) :=
  frames.filterMap (hipMidOf min_conf)

/-- The shoulder midpoint series of a frame list. -/
def shoulderList (frames : List (List ℚ)) (min_conf : ℚ) : List (ℚ × ℚ) :=
  frames.filterMap (shoulderMidOf min_conf)

/-- The x coordinates of the hip midpoint series (`hip_x` in the source). -/
def hipXs (frames : List (List ℚ)) (min_conf : ℚ) : List ℚ :=
  (hipList frames min_conf).map Prod.fst

/-! ### Concrete test inputs used by witnesses and counterexamples -/

/-- A canonical 54-float frame with both hips at `(hx, hy)` with confidence
`hc` and both shoulders at `(sx, sy)` with confidence `sc`; every other part
is zeroed (confidence 0, hence absent).  Part slots: r_shoulder at indices
6-8, l_shoulder at 15-17, r_hip at 24-26, l_hip at 33-35. -/
def mkTestFrame (hx hy hc sx sy sc : ℚ) : List ℚ :=
  [0, 0, 0,  0, 0, 0,  sx, sy, sc,  0, 0, 0,  0, 0, 0,  sx, sy, sc,
   0, 0, 0,  0, 0, 0,  hx, hy, hc,  0, 0, 0,  0, 0, 0,  hx, hy, hc,
   0, 0, 0,  0, 0, 0,  0, 0, 0,  0, 0, 0,  0, 0, 0,  0, 0, 0]

/-- The worked example of the spec: hip midpoints at x = [100, 130, 95],
y = [400, 400, 430], shoulder midpoints 100px above the hips. -/
def testFrames : List (List ℚ) :=
  [mkTestFrame 100 400 1 100 300 1,
   mkTestFrame 130 400 1 130 300 1,
   mkTestFrame 95 430 1 95 330 1]

/-- Frames whose hip midpoint x is constant (no horizontal motion). -/
def staticFrames : List (List ℚ) :=
  [mkTestFrame 100 400 1 100 300 1,
   mkTestFrame 100 410 1 100 310 1,
   mkTestFrame 100 400 1 100 300 1]

/-- Frames with confident hips but zero-confidence shoulders: the shoulder
midpoint series is empty. -/
def noShoulderFrames : List (List ℚ) :=
  [mkTestFrame 100 400 1 0 0 0,
   mkTestFrame 130 420 1 0 0 0]

/-- A payload whose single item holds a 54-element keypoint list of JSON
nulls: shape-valid, so ingestion reaches the float coercion, which raises. -/
def nullElementsPayload : JVal :=
  .obj [("pose_keypoints_2d", .arr (List.replicate 54 .null))]

/-- A payload whose single item holds 55 numeric keypoint values. -/
def longFramePayload : JVal :=
  .arr [.obj [("pose_keypoints_2d", .arr (List.replicate 55 (.num 1)))]]

/-- A payload mixing one well-formed item with one unusable (null) item. -/
def mixedPayload : JVal :=
  .arr [.obj [("pose_keypoints_2d", .arr (List.replicate 54 (.num 1)))], .null]

/-- Overwrite one part's `(x, y, confidence)` slots in a frame, leaving every
other slot unchanged: used to compare how `_part` treats two frames that
differ only in one confidence entry. -/
def setXYC (frame : List ℚ) (name : String) (x y c : ℚ) : List ℚ :=
  let idx := COCO_PARTS.indexOf name * 3
  ((frame.set idx x).set (idx + 1) y).set (idx + 2) c

/-- The constants derived from `testFrames` at threshold `0.2`. -/
def testConsts : MotionConstants :=
  ⟨1433/50, 14, 473/10, 20, 24, 16, 567/10, 567/20, 8, 100⟩

/-- The constants derived from `staticFrames` at threshold `0.2`. -/
def staticConsts : MotionConstants :=
  ⟨1323/50, 14, 2183/50, 20, 24, 16, 42, 24, 8, 100⟩

/-- The constants derived from `noShoulderFrames` at threshold `0.2`. -/
def noShoulderConsts : MotionConstants :=
  ⟨1323/50, 14, 2183/50, 20, 24, 16, 567/10, 567/20, 8, 40⟩

/-! ## Basic lemmas on rounding and clamping -/

theorem floor_le_roundHalfEven (q : ℚ) : ⌊q⌋ ≤ roundHalfEven q := by
  unfold roundHalfEven
  split_ifs <;> omega

theorem roundHalfEven_le_ceil (q : ℚ) : roundHalfEven q ≤ ⌈q⌉ := by
  have h1 : ⌊q⌋ ≤ ⌈q⌉ := Int.floor_le_ceil q
  have h2 : (1:ℚ)/2 ≤ q - (⌊q⌋ : ℚ) → ⌊q⌋ + 1 ≤ ⌈q⌉ := by
    intro h
    have hq : (⌊q⌋ : ℚ) < q := by linarith
    have hle : q ≤ (⌈q⌉ : ℚ) := Int.le_ceil q
    have : (⌊q⌋ : ℚ) < (⌈q⌉ : ℚ) := lt_of_lt_of_le hq hle
    have : ⌊q⌋ < ⌈q⌉ := by exact_mod_cast this
    omega
  unfold roundHalfEven
  split_ifs with hlt hgt heven
  · exact h1
  · exact h2 (by linarith)
  · exact h1
  · exact h2 (by linarith)

theorem round2_le_of_le (x : ℚ) (n : ℤ) (h : x ≤ (n : ℚ)) : round2 x ≤ (n : ℚ) := by
  unfold round2
  rw [div_le_iff₀ (by norm_num : (0:ℚ) < 100)]
  have h1 : roundHalfEven (x * 100) ≤ ⌈x * 100⌉ := roundHalfEven_le_ceil _
  have h2 : ⌈x * 100⌉ ≤ n * 100 := by
    rw [Int.ceil_le]
    push_cast
    nlinarith
  calc (roundHalfEven (x * 100) : ℚ)
      ≤ ((n * 100 : ℤ) : ℚ) := by exact_mod_cast le_trans h1 h2
    _ = (n : ℚ) * 100 := by push_cast; ring

theorem le_round2_of_le (x : ℚ) (m : ℤ) (h : (m : ℚ) ≤ x) : (m : ℚ) ≤ round2 x := by
  unfold round2
  rw [le_div_iff₀ (by norm_num : (0:ℚ) < 100)]
  have h1 : m * 100 ≤ ⌊x * 100⌋ := by
    rw [Int.le_floor]
    push_cast
    nlinarith
  have h2 : ⌊x * 100⌋ ≤ roundHalfEven (x * 100) := floor_le_roundHalfEven _
  calc (m : ℚ) * 100 = ((m * 100 : ℤ) : ℚ) := by push_cast; ring
    _ ≤ (roundHalfEven (x * 100) : ℚ) := by exact_mod_cast le_trans h1 h2

/-- Rounding a clamped value to 2 decimals stays inside the clamp range
whenever the bounds are integers (all clamp bounds in the source are). -/
theorem round2_clamp_bounds (x lo hi : ℚ) (m n : ℤ) (hm : lo = (m : ℚ))
    (hn : hi = (n : ℚ)) (h : lo ≤ hi) :
    lo ≤ round2 (clamp x lo hi) ∧ round2 (clamp x lo hi) ≤ hi := by
  have hlo : lo ≤ clamp x lo hi := le_max_left _ _
  have hhi : clamp x lo hi ≤ hi := max_le h (min_le_left _ _)
  subst hm hn
  exact ⟨le_round2_of_le _ m hlo, round2_le_of_le _ n hhi⟩

/-- All ten synthesized constants respect their declared clamp ranges, for
arbitrary raw metric values. -/
theorem mkConstants_bounds (a b c d e f : ℚ) :
    (20 ≤ (mkConstants a b c d e f).WALK_SWING_FORWARD_PX ∧
      (mkConstants a b c d e f).WALK_SWING_FORWARD_PX ≤ 72) ∧
    (14 ≤ (mkConstants a b c d e f).WALK_SWING_LIFT_PX ∧
      (mkConstants a b c d e f).WALK_SWING_LIFT_PX ≤ 42) ∧
    (34 ≤ (mkConstants a b c d e f).RUN_SWING_FORWARD_PX ∧
      (mkConstants a b c d e f).RUN_SWING_FORWARD_PX ≤ 112) ∧
    (20 ≤ (mkConstants a b c d e f).RUN_SWING_LIFT_PX ∧
      (mkConstants a b c d e f).RUN_SWING_LIFT_PX ≤ 64) ∧
    (24 ≤ (mkConstants a b c d e f).JUMP_HEIGHT_PX ∧
      (mkConstants a b c d e f).JUMP_HEIGHT_PX ≤ 120) ∧
    (16 ≤ (mkConstants a b c d e f).CROUCH_ROOT_DROP_PX ∧
      (mkConstants a b c d e f).CROUCH_ROOT_DROP_PX ≤ 56) ∧
    (42 ≤ (mkConstants a b c d e f).DASH_ROOT_ADVANCE_PX ∧
      (mkConstants a b c d e f).DASH_ROOT_ADVANCE_PX ≤ 140) ∧
    (24 ≤ (mkConstants a b c d e f).DASH_FOOT_DRIVE_PX ∧
      (mkConstants a b c d e f).DASH_FOOT_DRIVE_PX ≤ 74) ∧
    (8 ≤ (mkConstants a b c d e f).ROOT_NUDGE_STEP_PX ∧
      (mkConstants a b c d e f).ROOT_NUDGE_STEP_PX ≤ 26) ∧
    (40 ≤ (mkConstants a b c d e f).REFERENCE_BODY_SPAN_PX ∧
      (mkConstants a b c d e f).REFERENCE_BODY_SPAN_PX ≤ 240) := by
  refine ⟨?_, ?_, ?_, ?_, ?_, ?_, ?_, ?_, ?_, ?_⟩
  · exact round2_clamp_bounds _ 20 72 20 72 (by norm_num) (by norm_num) (by norm_num)
  · exact round2_clamp_bounds _ 14 42 14 42 (by norm_num) (by norm_num) (by norm_num)
  · exact round2_clamp_bounds _ 34 112 34 112 (by norm_num) (by norm_num) (by norm_num)
  · exact round2_clamp_bounds _ 20 64 20 64 (by norm_num) (by norm_num) (by norm_num)
  · exact round2_clamp_bounds _ 24 120 24 120 (by norm_num) (by norm_num) (by norm_num)
  · exact round2_clamp_bounds _ 16 56 16 56 (by norm_num) (by norm_num) (by norm_num)
  · exact round2_clamp_bounds _ 42 140 42 140 (by norm_num) (by norm_num) (by norm_num)
  · exact round2_clamp_bounds _ 24 74 24 74 (by norm_num) (by norm_num) (by norm_num)
  · exact round2_clamp_bounds _ 8 26 8 26 (by norm_num) (by norm_num) (by norm_num)
  · exact round2_clamp_bounds _ 40 240 40 240 (by norm_num) (by norm_num) (by norm_num)

/-- Inversion of a successful `derive_motion_constants` run: the midpoint
collection succeeded, at least 2 hip samples survived, and the result is the
statistics stage applied to the collected series. -/
theorem derive_ok_inv (frames : List (List ℚ)) (min_conf : ℚ)
    (c : MotionConstants)
    (h : derive_motion_constants frames min_conf = .ok c) :
    ∃ hip sh, collectMidpoints min_conf frames = .ok (hip, sh) ∧
      2 ≤ hip.length ∧ c = deriveFrom hip sh := by
  unfold derive_motion_constants at h
  split at h
  · exact absurd h (by simp)
  · next hip sh heq =>
      split at h
      · exact absurd h (by simp)
      · next hlt =>
          refine ⟨hip, sh, heq, by omega, ?_⟩
          injection h with h
          exact h.symm

/-! ## Concrete evaluation lemmas

ℚ arithmetic does not reduce definitionally in this toolchain, so concrete
runs of the pipeline are evaluated by `norm_num` through the following
lemmas. -/

theorem part_test_l_hip (hx hy hc sx sy sc : ℚ) :
    part (mkTestFrame hx hy hc sx sy sc) "l_hip" =
      .ok (if hc ≤ 0 then none else some ⟨hx, hy, hc⟩) := by
  simp [part, mkTestFrame, COCO_PARTS]

theorem part_test_r_hip (hx hy hc sx sy sc : ℚ) :
    part (mkTestFrame hx hy hc sx sy sc) "r_hip" =
      .ok (if hc ≤ 0 then none else some ⟨hx, hy, hc⟩) := by
  simp [part, mkTestFrame, COCO_PARTS]

theorem part_test_l_shoulder (hx hy hc sx sy sc : ℚ) :
    part (mkTestFrame hx hy hc sx sy sc) "l_shoulder" =
      .ok (if sc ≤ 0 then none else some ⟨sx, sy, sc⟩) := by
  simp [part, mkTestFrame, COCO_PARTS]

theorem part_test_r_shoulder (hx hy hc sx sy sc : ℚ) :
    part (mkTestFrame hx hy hc sx sy sc) "r_shoulder" =
      .ok (if sc ≤ 0 then none else some ⟨sx, sy, sc⟩) := by
  simp [part, mkTestFrame, COCO_PARTS]

/-- `statistics.median` of a one-element list is that element (so the `14.0`
fallback in the `ROOT_NUDGE_STEP_PX` entry is dead). -/
theorem pymedian_singleton (a fb : ℚ) : pymedian [a] fb = a := by
  simp [pymedian, List.insertionSort, List.orderedInsert]

theorem collect_testFrames : collectMidpoints (1/5) testFrames =
    .ok ([(100, 400), (130, 400), (95, 430)], [(100, 300), (130, 300), (95, 330)]) := by
  simp only [testFrames, collectMidpoints, part_test_l_hip, part_test_r_hip,
    part_test_l_shoulder, part_test_r_shoulder]
  norm_num [midpoint, consOpt]

theorem stride_test : stride_stats [100, 130, 95] = (273/4, 9009/80) := by
  norm_num [stride_stats, List.filter, pymedian, List.insertionSort, List.orderedInsert]

theorem dash_test : dash_distance [100, 130, 95] = 135 := by
  norm_num [dash_distance, sortedAbsDeltas, List.insertionSort, List.orderedInsert]

theorem mk_test : mkConstants (273/4) (9009/80) 135 12 30 100 = testConsts := by
  have habs : |(51597:ℚ)/10000| = 51597/10000 := by
    rw [abs_of_nonneg]
    norm_num
  simp only [mkConstants, testConsts, MotionConstants.mk.injEq, pymedian_singleton]
  refine ⟨?_, ?_, ?_, ?_, ?_, ?_, ?_, ?_, ?_, ?_⟩ <;>
    norm_num [clamp, max_def, min_def, round2, roundHalfEven, habs]

theorem deriveFrom_test :
    deriveFrom [(100, 400), (130, 400), (95, 430)] [(100, 300), (130, 300), (95, 330)] =
      testConsts := by
  simp only [deriveFrom, List.map_cons, List.map_nil, stride_test, dash_test]
  have h1 : pymedian [(400:ℚ), 400, 430] (([(400:ℚ), 400, 430]).headD 0) = 400 := by
    norm_num [pymedian, List.insertionSort, List.orderedInsert]
  have h2 : listMin [(400:ℚ), 400, 430] = 400 := by norm_num [listMin]
  have h3 : listMax [(400:ℚ), 400, 430] = 430 := by norm_num [listMax]
  rw [h1, h2, h3]
  have h4 : pymedian [(100:ℚ), 100, 100] 80 = 100 := by
    norm_num [pymedian, List.insertionSort, List.orderedInsert]
  norm_num [List.range, List.range.loop, Nat.min_def, h4]
  exact mk_test

/-- The worked end-to-end example of the spec, §8, evaluated. -/
theorem derive_testFrames : derive_motion_constants testFrames (1/5) = .ok testConsts := by
  rw [derive_motion_constants, collect_testFrames]
  norm_num [deriveFrom_test]

/-! ## Claim C1 -/

/-- C1: for every frame list and confidence threshold for which
`derive_motion_constants` succeeds, each of the ten returned constants lies
within its declared clamp range inclusive, after rounding to 2 decimal
places: `WALK_SWING_FORWARD_PX ∈ [20, 72]`, `WALK_SWING_LIFT_PX ∈ [14, 42]`,
`RUN_SWING_FORWARD_PX ∈ [34, 112]`, `RUN_SWING_LIFT_PX ∈ [20, 64]`,
`JUMP_HEIGHT_PX ∈ [24, 120]`, `CROUCH_ROOT_DROP_PX ∈ [16, 56]`,
`DASH_ROOT_ADVANCE_PX ∈ [42, 140]`, `DASH_FOOT_DRIVE_PX ∈ [24, 74]`,
`ROOT_NUDGE_STEP_PX ∈ [8, 26]`, `REFERENCE_BODY_SPAN_PX ∈ [40, 240]`. -/
theorem constants_within_clamp_ranges (frames : List (List ℚ)) (min_conf : ℚ)
    (c : MotionConstants)
    (h : derive_motion_constants frames min_conf = .ok c) :
    (20 ≤ c.WALK_SWING_FORWARD_PX ∧ c.WALK_SWING_FORWARD_PX ≤ 72) ∧
    (14 ≤ c.WALK_SWING_LIFT_PX ∧ c.WALK_SWING_LIFT_PX ≤ 42) ∧
    (34 ≤ c.RUN_SWING_FORWARD_PX ∧ c.RUN_SWING_FORWARD_PX ≤ 112) ∧
    (20 ≤ c.RUN_SWING_LIFT_PX ∧ c.RUN_SWING_LIFT_PX ≤ 64) ∧
    (24 ≤ c.JUMP_HEIGHT_PX ∧ c.JUMP_HEIGHT_PX ≤ 120) ∧
    (16 ≤ c.CROUCH_ROOT_DROP_PX ∧ c.CROUCH_ROOT_DROP_PX ≤ 56) ∧
    (42 ≤ c.DASH_ROOT_ADVANCE_PX ∧ c.DASH_ROOT_ADVANCE_PX ≤ 140) ∧
    (24 ≤ c.DASH_FOOT_DRIVE_PX ∧ c.DASH_FOOT_DRIVE_PX ≤ 74) ∧
    (8 ≤ c.ROOT_NUDGE_STEP_PX ∧ c.ROOT_NUDGE_STEP_PX ≤ 26) ∧
    (40 ≤ c.REFERENCE_BODY_SPAN_PX ∧ c.REFERENCE_BODY_SPAN_PX ≤ 240) := by
  obtain ⟨hip, sh, hcm, hlen, hc⟩ := derive_ok_inv frames min_conf c h
  subst hc
  exact mkConstants_bounds _ _ _ _ _ _

/-- Witness for C1 at a concrete successful run. -/
theorem constants_within_clamp_ranges_witness :
    (20 ≤ testConsts.WALK_SWING_FORWARD_PX ∧ testConsts.WALK_SWING_FORWARD_PX ≤ 72) ∧
    (14 ≤ testConsts.WALK_SWING_LIFT_PX ∧ testConsts.WALK_SWING_LIFT_PX ≤ 42) ∧
    (34 ≤ testConsts.RUN_SWING_FORWARD_PX ∧ testConsts.RUN_SWING_FORWARD_PX ≤ 112) ∧
    (20 ≤ testConsts.RUN_SWING_LIFT_PX ∧ testConsts.RUN_SWING_LIFT_PX ≤ 64) ∧
    (24 ≤ testConsts.JUMP_HEIGHT_PX ∧ testConsts.JUMP_HEIGHT_PX ≤ 120) ∧
    (16 ≤ testConsts.CROUCH_ROOT_DROP_PX ∧ testConsts.CROUCH_ROOT_DROP_PX ≤ 56) ∧
    (42 ≤ testConsts.DASH_ROOT_ADVANCE_PX ∧ testConsts.DASH_ROOT_ADVANCE_PX ≤ 140) ∧
    (24 ≤ testConsts.DASH_FOOT_DRIVE_PX ∧ testConsts.DASH_FOOT_DRIVE_PX ≤ 74) ∧
    (8 ≤ testConsts.ROOT_NUDGE_STEP_PX ∧ testConsts.ROOT_NUDGE_STEP_PX ≤ 26) ∧
    (40 ≤ testConsts.REFERENCE_BODY_SPAN_PX ∧ testConsts.REFERENCE_BODY_SPAN_PX ≤ 240) :=
  constants_within_clamp_ranges testFrames (1/5) testConsts derive_testFrames

/-! ## Valid frames make the midpoint collection total -/

/-- `_part` succeeds on any frame long enough for the three indexed reads. -/
theorem part_isOk (f : List ℚ) (name : String)
    (h : COCO_PARTS.indexOf name * 3 + 2 < f.length) :
    ∃ o, part f name = .ok o := by
  simp only [part]
  have h1 : COCO_PARTS.indexOf name * 3 < f.length := by omega
  have h2 : COCO_PARTS.indexOf name * 3 + 1 < f.length := by omega
  rw [List.getElem?_eq_getElem h1, List.getElem?_eq_getElem h2, List.getElem?_eq_getElem h]
  exact ⟨_, rfl⟩

theorem hipMidOf_eq (min_conf : ℚ) (f : List ℚ) (lh rh : Option XYC)
    (hlh : part f "l_hip" = .ok lh) (hrh : part f "r_hip" = .ok rh) :
    hipMidOf min_conf f = midpoint lh rh min_conf := by
  simp [hipMidOf, hlh, hrh]

theorem shoulderMidOf_eq (min_conf : ℚ) (f : List ℚ) (ls rs : Option XYC)
    (hls : part f "l_shoulder" = .ok ls) (hrs : part f "r_shoulder" = .ok rs) :
    shoulderMidOf min_conf f = midpoint ls rs min_conf := by
  simp [shoulderMidOf, hls, hrs]

/-- On canonical-length frames the frame loop cannot raise, and collects
exactly the two `filterMap` series. -/
theorem collect_of_valid (min_conf : ℚ) (frames : List (List ℚ))
    (hval : ∀ f ∈ frames, 54 ≤ f.length) :
    collectMidpoints min_conf frames =
      .ok (hipList frames min_conf, shoulderList frames min_conf) := by
  induction frames with
  | nil => rfl
  | cons f rest ih =>
    have hf : 54 ≤ f.length := hval f (List.mem_cons_self f rest)
    have hrest := ih (fun g hg => hval g (List.mem_cons_of_mem f hg))
    have e1 : COCO_PARTS.indexOf "l_hip" * 3 + 2 = 35 := by decide
    have e2 : COCO_PARTS.indexOf "r_hip" * 3 + 2 = 26 := by decide
    have e3 : COCO_PARTS.indexOf "l_shoulder" * 3 + 2 = 17 := by decide
    have e4 : COCO_PARTS.indexOf "r_shoulder" * 3 + 2 = 8 := by decide
    obtain ⟨lh, hlh⟩ := part_isOk f "l_hip" (by omega)
    obtain ⟨rh, hrh⟩ := part_isOk f "r_hip" (by omega)
    obtain ⟨ls, hls⟩ := part_isOk f "l_shoulder" (by omega)
    obtain ⟨rs, hrs⟩ := part_isOk f "r_shoulder" (by omega)
    simp only [collectMidpoints, hlh, hrh, hls, hrs, hrest]
    simp only [hipList, shoulderList, List.filterMap_cons,
      hipMidOf_eq min_conf f lh rh hlh hrh, shoulderMidOf_eq min_conf f ls rs hls hrs]
    cases hm : midpoint lh rh min_conf <;> cases hs : midpoint ls rs min_conf <;>
      simp [consOpt, hipList, shoulderList]

/-- On canonical-length frames the whole pipeline is the gate on the hip
sample count followed by the statistics stage. -/
theorem derive_eq_of_valid (frames : List (List ℚ)) (min_conf : ℚ)
    (hval : ∀ f ∈ frames, 54 ≤ f.length) :
    derive_motion_constants frames min_conf =
      if (hipList frames min_conf).length < 2 then .error .valueError
      else .ok (deriveFrom (hipList frames min_conf) (shoulderList frames min_conf)) := by
  rw [derive_motion_constants, collect_of_valid min_conf frames hval]

/-! ## Claim C2 -/

/-- C2: for every list of canonical-length frames and every threshold, if
fewer than 2 hip midpoint samples pass the confidence gate,
`derive_motion_constants` fails with the `ValueError`-class error and
produces no constants at all (the result is the bare error, so the outcome
is all-or-nothing: no partial or default constant set). -/
theorem insufficient_hip_samples_error (frames : List (List ℚ)) (min_conf : ℚ)
    (hval : ∀ f ∈ frames, 54 ≤ f.length)
    (hlt : (hipList frames min_conf).length < 2) :
    derive_motion_constants frames min_conf = .error PErr.valueError := by
  rw [derive_eq_of_valid frames min_conf hval, if_pos hlt]

/-- Witness for C2 at the empty frame list. -/
theorem insufficient_hip_samples_error_witness :
    derive_motion_constants [] 0 = .error PErr.valueError :=
  insufficient_hip_samples_error [] 0 (by simp) (by norm_num [hipList])

/-! ## Claims C7 and C9: dash distance -/

theorem sortedAbsDeltas_length (hip_x : List ℚ) :
    (sortedAbsDeltas hip_x).length = hip_x.length - 1 := by
  simp [sortedAbsDeltas, List.length_insertionSort, List.length_zip]

/-- C7: for every hip-x sequence with at least 2 samples (hence at least one
frame-to-frame delta), the raw dash distance equals
`max(48.0, s[floor(0.9 * (count - 1))] * 4.5)` where `s` is the list of
absolute frame-to-frame deltas sorted ascending, `count` its length
(`= hip_x.length - 1`), and the index is 0-based. -/
theorem dash_distance_formula (hip_x : List ℚ) (h : 2 ≤ hip_x.length) :
    (sortedAbsDeltas hip_x).length = hip_x.length - 1 ∧
    dash_distance hip_x =
      max 48 ((sortedAbsDeltas hip_x).getD
        ((⌊(9/10 : ℚ) * (((sortedAbsDeltas hip_x).length : ℚ) - 1)⌋).toNat) 0 * (9/2)) := by
  refine ⟨sortedAbsDeltas_length hip_x, ?_⟩
  have hlen := sortedAbsDeltas_length hip_x
  cases hs : sortedAbsDeltas hip_x with
  | nil => rw [hs] at hlen; simp at hlen; omega
  | cons d rest =>
    unfold dash_distance
    rw [hs]

/-- Witness for C7 at the concrete sequence `[0, 10, 30]`. -/
theorem dash_distance_formula_witness :
    (sortedAbsDeltas [0, 10, 30]).length = ([0, 10, 30] : List ℚ).length - 1 ∧
    dash_distance [0, 10, 30] =
      max 48 ((sortedAbsDeltas [0, 10, 30]).getD
        ((⌊(9/10 : ℚ) * (((sortedAbsDeltas [0, 10, 30]).length : ℚ) - 1)⌋).toNat) 0 * (9/2)) :=
  dash_distance_formula [0, 10, 30] (by norm_num)

/-- C9: under the pipeline's precondition (at least 2 hip samples, so at
least one delta), the empty-deltas fallback branch of `_dash_distance`
returning `64.0` is unreachable — the sorted delta list is nonempty — and
the raw dash distance, computed as `max(48.0, p90 * 4.5)`, is at least
`48.0`. -/
theorem dash_fallback_unreachable (hip_x : List ℚ) (h : 2 ≤ hip_x.length) :
    sortedAbsDeltas hip_x ≠ [] ∧ 48 ≤ dash_distance hip_x := by
  have hlen := sortedAbsDeltas_length hip_x
  have hne : sortedAbsDeltas hip_x ≠ [] := by
    intro hnil
    rw [hnil] at hlen
    simp at hlen
    omega
  refine ⟨hne, ?_⟩
  cases hs : sortedAbsDeltas hip_x with
  | nil => exact absurd hs hne
  | cons d rest =>
    unfold dash_distance
    rw [hs]
    exact le_max_left _ _

/-- Witness for C9 at the concrete sequence `[5, 6]`. -/
theorem dash_fallback_unreachable_witness :
    sortedAbsDeltas [5, 6] ≠ [] ∧ 48 ≤ dash_distance [5, 6] :=
  dash_fallback_unreachable [5, 6] (by norm_num)

/-! ## Claim C10: `ROOT_NUDGE_STEP_PX` is a function of the walk stride -/

theorem getD_zero_nonneg (s : List ℚ) (i : ℕ) (h : ∀ x ∈ s, 0 ≤ x) :
    0 ≤ s.getD i 0 := by
  rw [List.getD_eq_getElem?_getD]
  cases hx : s[i]? with
  | none => simp
  | some v =>
    simp only [Option.getD_some]
    exact h v (List.getElem?_mem hx)

theorem pymedian_nonneg (l : List ℚ) (fb : ℚ) (hl : ∀ x ∈ l, 0 ≤ x)
    (hfb : 0 ≤ fb) : 0 ≤ pymedian l fb := by
  cases l with
  | nil => simpa [pymedian]
  | cons v rest =>
    have hs : ∀ x ∈ (v :: rest).insertionSort (fun a b => a ≤ b), 0 ≤ x := by
      intro x hx
      exact hl x ((List.mem_insertionSort _).mp hx)
    simp only [pymedian]
    split_ifs with hpar
    · exact getD_zero_nonneg _ _ hs
    · have h1 := getD_zero_nonneg ((v :: rest).insertionSort (fun a b => a ≤ b))
        ((v :: rest).length / 2 - 1) hs
      have h2 := getD_zero_nonneg ((v :: rest).insertionSort (fun a b => a ≤ b))
        ((v :: rest).length / 2) hs
      linarith

/-- The walk stride is a median of absolute values scaled by positive
factors, hence nonnegative. -/
theorem walk_stride_nonneg (hip_x : List ℚ) : 0 ≤ (stride_stats hip_x).1 := by
  unfold stride_stats
  have habs : ∀ x ∈ (((hip_x.zip hip_x.tail).map (fun p => p.2 - p.1)).filter
      (fun d => 1/1000000 < |d|)).map (fun d => |d|), 0 ≤ x := by
    intro x hx
    obtain ⟨d, _, rfl⟩ := List.mem_map.mp hx
    exact abs_nonneg d
  exact mul_nonneg (pymedian_nonneg _ 30 habs (by norm_num)) (by norm_num)

/-- In the statistics stage, `_median` over the one-element list in the
`ROOT_NUDGE_STEP_PX` entry returns that element (so the `14.0` fallback is
dead), and the absolute value is the identity because the walk stride is
nonnegative. -/
theorem deriveFrom_nudge (hip sh : List (ℚ × ℚ)) :
    (deriveFrom hip sh).ROOT_NUDGE_STEP_PX =
      round2 (clamp ((stride_stats (hip.map Prod.fst)).1 * (42/100) * (18/100)) 8 26) := by
  show round2 (clamp (pymedian [|(stride_stats (hip.map Prod.fst)).1 * (42/100) * (18/100)|] 14)
    8 26) = _
  rw [pymedian_singleton, abs_of_nonneg]
  have := walk_stride_nonneg (hip.map Prod.fst)
  positivity

/-- C10: `ROOT_NUDGE_STEP_PX` is a deterministic function of the walk stride
alone: for every successful run on canonical-length frames,
`ROOT_NUDGE_STEP_PX = round(clamp(walk_stride * 0.42 * 0.18, 8.0, 26.0), 2)`
(the `14.0` median fallback in that entry is never used). -/
theorem root_nudge_from_walk_stride (frames : List (List ℚ)) (min_conf : ℚ)
    (c : MotionConstants) (hval : ∀ f ∈ frames, 54 ≤ f.length)
    (h : derive_motion_constants frames min_conf = .ok c) :
    c.ROOT_NUDGE_STEP_PX =
      round2 (clamp ((stride_stats (hipXs frames min_conf)).1 * (42/100) * (18/100)) 8 26) := by
  rw [derive_eq_of_valid frames min_conf hval] at h
  by_cases hlt : (hipList frames min_conf).length < 2
  · rw [if_pos hlt] at h
    exact absurd h (by simp)
  · rw [if_neg hlt] at h
    injection h with h
    rw [← h]
    exact deriveFrom_nudge _ _

/-- Witness for C10 at the concrete run on `testFrames`. -/
theorem root_nudge_from_walk_stride_witness :
    testConsts.ROOT_NUDGE_STEP_PX =
      round2 (clamp ((stride_stats (hipXs testFrames (1/5))).1 * (42/100) * (18/100)) 8 26) :=
  root_nudge_from_walk_stride testFrames (1/5) testConsts (by decide) derive_testFrames

/-! ## Claim C4: constant hip x (no horizontal motion) -/

theorem collect_staticFrames : collectMidpoints (1/5) staticFrames =
    .ok ([(100, 400), (100, 410), (100, 400)], [(100, 300), (100, 310), (100, 300)]) := by
  simp only [staticFrames, collectMidpoints, part_test_l_hip, part_test_r_hip,
    part_test_l_shoulder, part_test_r_shoulder]
  norm_num [midpoint, consOpt]

theorem stride_static : stride_stats [100, 100, 100] = (63, 2079/20) := by
  norm_num [stride_stats, List.filter, pymedian, List.insertionSort, List.orderedInsert]

theorem dash_static : dash_distance [100, 100, 100] = 48 := by
  norm_num [dash_distance, sortedAbsDeltas, List.insertionSort, List.orderedInsert]

theorem mk_static : mkConstants 63 (2079/20) 48 12 10 100 = staticConsts := by
  have habs : |(11907:ℚ)/2500| = 11907/2500 := by
    rw [abs_of_nonneg]
    norm_num
  simp only [mkConstants, staticConsts, MotionConstants.mk.injEq, pymedian_singleton]
  refine ⟨?_, ?_, ?_, ?_, ?_, ?_, ?_, ?_, ?_, ?_⟩ <;>
    norm_num [clamp, max_def, min_def, round2, roundHalfEven, habs]

theorem deriveFrom_static :
    deriveFrom [(100, 400), (100, 410), (100, 400)] [(100, 300), (100, 310), (100, 300)] =
      staticConsts := by
  simp only [deriveFrom, List.map_cons, List.map_nil, stride_static, dash_static]
  have h1 : pymedian [(400:ℚ), 410, 400] (([(400:ℚ), 410, 400]).headD 0) = 400 := by
    norm_num [pymedian, List.insertionSort, List.orderedInsert]
  have h2 : listMin [(400:ℚ), 410, 400] = 400 := by norm_num [listMin, min_def]
  have h3 : listMax [(400:ℚ), 410, 400] = 410 := by norm_num [listMax, max_def]
  rw [h1, h2, h3]
  have h4 : pymedian [(100:ℚ), 100, 100] 80 = 100 := by
    norm_num [pymedian, List.insertionSort, List.orderedInsert]
  norm_num [List.range, List.range.loop, Nat.min_def, h4]
  exact mk_static

theorem derive_staticFrames :
    derive_motion_constants staticFrames (1/5) = .ok staticConsts := by
  rw [derive_motion_constants, collect_staticFrames]
  norm_num [deriveFrom_static]

theorem hipXs_static : hipXs staticFrames (1/5) = [100, 100, 100] := by
  simp only [hipXs, hipList, staticFrames, List.filterMap_cons, List.filterMap_nil,
    hipMidOf_eq (1/5) _ _ _ (part_test_l_hip 100 400 1 100 300 1) (part_test_r_hip 100 400 1 100 300 1),
    hipMidOf_eq (1/5) _ _ _ (part_test_l_hip 100 410 1 100 310 1) (part_test_r_hip 100 410 1 100 310 1)]
  norm_num [midpoint]

/-- When all hip x samples are equal, every delta is zero, the noise-floor
filter empties the list, and the walk stride is the fallback `30.0 * 2.1`. -/
theorem stride_stats_const (hip_x : List ℚ)
    (heq : ∀ a ∈ hip_x, ∀ b ∈ hip_x, a = b) :
    (stride_stats hip_x).1 = 30 * (21/10) := by
  have hdel : ((hip_x.zip hip_x.tail).map (fun p => p.2 - p.1)).filter
      (fun d => 1/1000000 < |d|) = [] := by
    rw [List.filter_eq_nil_iff]
    intro d hd
    obtain ⟨p, hp, rfl⟩ := List.mem_map.mp hd
    obtain ⟨h1, h2⟩ := List.of_mem_zip hp
    have hz : p.2 - p.1 = 0 := by
      rw [heq p.2 (List.mem_of_mem_tail h2) p.1 h1]
      ring
    rw [hz]
    norm_num
  simp only [stride_stats, hdel, List.map_nil]
  simp [pymedian]

theorem getD_all_zero (s : List ℚ) (i : ℕ) (h : ∀ x ∈ s, x = 0) :
    s.getD i 0 = 0 := by
  rw [List.getD_eq_getElem?_getD]
  cases hx : s[i]? with
  | none => simp
  | some v =>
    simp only [Option.getD_some]
    exact h v (List.getElem?_mem hx)

/-- When all hip x samples are equal the deltas are all zero but still
present, so `_dash_distance` takes the percentile branch and returns the
`48.0` floor — not the `64.0` empty-deltas fallback. -/
theorem dash_distance_const (hip_x : List ℚ) (h : 2 ≤ hip_x.length)
    (heq : ∀ a ∈ hip_x, ∀ b ∈ hip_x, a = b) :
    dash_distance hip_x = 48 := by
  have hzero : ∀ x ∈ sortedAbsDeltas hip_x, x = 0 := by
    intro x hx
    obtain ⟨p, hp, rfl⟩ := List.mem_map.mp ((List.mem_insertionSort _).mp hx)
    obtain ⟨h1, h2⟩ := List.of_mem_zip hp
    rw [heq p.2 (List.mem_of_mem_tail h2) p.1 h1]
    simp
  have hlen := sortedAbsDeltas_length hip_x
  cases hs : sortedAbsDeltas hip_x with
  | nil => rw [hs] at hlen; simp at hlen; omega
  | cons d rest =>
    unfold dash_distance
    rw [hs]
    dsimp only
    rw [getD_all_zero (d :: rest) _ (by rw [← hs]; exact hzero)]
    norm_num [max_def]

/-- C4 (amended): for every successful run on canonical-length frames whose
hip midpoint x series is constant, `WALK_SWING_FORWARD_PX` is the
epsilon-fallback stride `round(clamp(30.0 * 2.1 * 0.42, 20, 72), 2)`
(the claim omitted the `2.1` stride multiplier), and `DASH_ROOT_ADVANCE_PX`
equals `round(clamp(64.0 * 0.42, 42, 140), 2)` as claimed — though the code
reaches that value through the `48.0` floor of the percentile branch (the
zero deltas are present, so the `64.0` fallback is not taken; both
expressions clamp up to `42.0`). -/
theorem constant_x_fallback_constants (frames : List (List ℚ)) (min_conf : ℚ)
    (c : MotionConstants) (hval : ∀ f ∈ frames, 54 ≤ f.length)
    (h : derive_motion_constants frames min_conf = .ok c)
    (heq : ∀ a ∈ hipXs frames min_conf, ∀ b ∈ hipXs frames min_conf, a = b) :
    c.WALK_SWING_FORWARD_PX = round2 (clamp ((30 * (21/10) : ℚ) * (42/100)) 20 72) ∧
    c.DASH_ROOT_ADVANCE_PX = round2 (clamp ((64:ℚ) * (42/100)) 42 140) := by
  simp only [hipXs] at heq
  rw [derive_eq_of_valid frames min_conf hval] at h
  by_cases hlt : (hipList frames min_conf).length < 2
  · rw [if_pos hlt] at h
    exact absurd h (by simp)
  · rw [if_neg hlt] at h
    injection h with h
    rw [← h]
    have hx2 : 2 ≤ ((hipList frames min_conf).map Prod.fst).length := by
      rw [List.length_map]
      omega
    constructor
    · show round2 (clamp ((stride_stats ((hipList frames min_conf).map Prod.fst)).1 * (42/100))
        20 72) = _
      rw [stride_stats_const _ heq]
    · show round2 (clamp (dash_distance ((hipList frames min_conf).map Prod.fst) * (42/100))
        42 140) = _
      rw [dash_distance_const _ hx2 heq]
      norm_num [clamp, max_def, min_def, round2, roundHalfEven]

/-- Counterexample to C4 as stated: a concrete constant-x run succeeds with
`WALK_SWING_FORWARD_PX = 26.46`, whereas the claimed formula
`round(clamp(30.0 * 0.42, 20, 72), 2)` evaluates to `20.0`. -/
theorem constant_x_walk_counterexample :
    derive_motion_constants staticFrames (1/5) = .ok staticConsts ∧
    (∀ a ∈ hipXs staticFrames (1/5), ∀ b ∈ hipXs staticFrames (1/5), a = b) ∧
    staticConsts.WALK_SWING_FORWARD_PX ≠ round2 (clamp ((30:ℚ) * (42/100)) 20 72) := by
  refine ⟨derive_staticFrames, ?_, ?_⟩
  · intro a ha b hb
    rw [hipXs_static] at ha hb
    simp at ha hb
    rw [ha, hb]
  · norm_num [staticConsts, clamp, max_def, min_def, round2, roundHalfEven]

/-- Witness for the amended C4 at the concrete constant-x run. -/
theorem constant_x_fallback_constants_witness :
    staticConsts.WALK_SWING_FORWARD_PX = round2 (clamp ((30 * (21/10) : ℚ) * (42/100)) 20 72) ∧
    staticConsts.DASH_ROOT_ADVANCE_PX = round2 (clamp ((64:ℚ) * (42/100)) 42 140) :=
  constant_x_fallback_constants staticFrames (1/5) staticConsts (by decide) derive_staticFrames
    (by intro a ha b hb; rw [hipXs_static] at ha hb; simp at ha hb; rw [ha, hb])

/-! ## Claim C6: confidence gate semantics -/

/-- Reading back the slots written by `setXYC`: `_part` sees exactly the
written keypoint, absent exactly when the written confidence is `≤ 0`. -/
theorem part_setXYC (f : List ℚ) (name : String) (hn : name ∈ COCO_PARTS)
    (hlen : 54 ≤ f.length) (x y c : ℚ) :
    part (setXYC f name x y c) name = .ok (if c ≤ 0 then none else some ⟨x, y, c⟩) := by
  have hidx : COCO_PARTS.indexOf name < 18 := by
    have h18 : COCO_PARTS.length = 18 := by decide
    have := List.indexOf_lt_length.mpr hn
    omega
  simp only [part, setXYC]
  have h0 : COCO_PARTS.indexOf name * 3 < f.length := by omega
  have h1 : COCO_PARTS.indexOf name * 3 + 1 < f.length := by omega
  have h2 : COCO_PARTS.indexOf name * 3 + 2 < f.length := by omega
  have e0 : (((f.set (COCO_PARTS.indexOf name * 3) x).set (COCO_PARTS.indexOf name * 3 + 1) y).set
      (COCO_PARTS.indexOf name * 3 + 2) c)[COCO_PARTS.indexOf name * 3]? = some x := by
    rw [List.getElem?_set_ne (by omega), List.getElem?_set_ne (by omega)]
    simp [List.getElem?_set_self, h0]
  have e1 : (((f.set (COCO_PARTS.indexOf name * 3) x).set (COCO_PARTS.indexOf name * 3 + 1) y).set
      (COCO_PARTS.indexOf name * 3 + 2) c)[COCO_PARTS.indexOf name * 3 + 1]? = some y := by
    rw [List.getElem?_set_ne (by omega)]
    simp [List.getElem?_set_self, h1]
  have e2 : (((f.set (COCO_PARTS.indexOf name * 3) x).set (COCO_PARTS.indexOf name * 3 + 1) y).set
      (COCO_PARTS.indexOf name * 3 + 2) c)[COCO_PARTS.indexOf name * 3 + 2]? = some c := by
    simp [List.getElem?_set_self, h2]
  rw [e0, e1, e2]

/-- C6: a keypoint whose confidence is exactly 0 is treated identically to
one with negative confidence — `_part` reports both as absent, and an absent
joint contributes to no midpoint — whereas a keypoint whose confidence
equals `min_conf` exactly is treated as present and (when the other joint of
the pair also qualifies) contributes to the midpoint sample: the threshold
bound is inclusive. -/
theorem confidence_threshold_semantics (f : List ℚ) (name : String)
    (hn : name ∈ COCO_PARTS) (hlen : 54 ≤ f.length) (x y cneg : ℚ) (hneg : cneg < 0)
    (a b : XYC) (min_conf : ℚ) (ha : a.c = min_conf) (hb : min_conf ≤ b.c) :
    part (setXYC f name x y 0) name = .ok none ∧
    part (setXYC f name x y cneg) name = .ok none ∧
    midpoint none (some b) min_conf = none ∧
    midpoint (some a) (some b) min_conf =
      some ((a.x + b.x) * (1/2), (a.y + b.y) * (1/2)) := by
  refine ⟨?_, ?_, rfl, ?_⟩
  · rw [part_setXYC f name hn hlen x y 0]
    simp
  · rw [part_setXYC f name hn hlen x y cneg]
    simp [le_of_lt hneg]
  · unfold midpoint
    dsimp only
    rw [if_neg]
    push_neg
    exact ⟨le_of_eq ha.symm, hb⟩

/-- Witness for C6 at a concrete frame and keypoint pair. -/
theorem confidence_threshold_semantics_witness :
    part (setXYC (List.replicate 54 0) "l_hip" 7 9 0) "l_hip" = .ok none ∧
    part (setXYC (List.replicate 54 0) "l_hip" 7 9 (-1)) "l_hip" = .ok none ∧
    midpoint none (some ⟨2, 4, 1/2⟩) (1/5) = none ∧
    midpoint (some ⟨3, 5, 1/5⟩) (some ⟨2, 4, 1/2⟩) (1/5) =
      some ((3 + 2) * (1/2), (5 + 4) * (1/2)) :=
  confidence_threshold_semantics (List.replicate 54 0) "l_hip" (by decide) (by simp)
    7 9 (-1) (by norm_num) ⟨3, 5, 1/5⟩ ⟨2, 4, 1/2⟩ (1/5) rfl (by norm_num)

/-! ## Claim C8: empty shoulder series falls back to the hip series -/

/-- C8: for every accepted input (canonical-length frames, at least 2 hip
samples) in which no shoulder midpoint passes the confidence gate, the
pipeline still succeeds — it never crashes — and `REFERENCE_BODY_SPAN_PX` is
computed by substituting the hip-y series for the shoulder-y series: per hip
sample the absolute vertical distance to the positionally paired sample
(index clamped to the last available sample), then the median of those
distances with fallback `80.0`, clamped to `[40, 240]` and rounded. -/
theorem shoulder_fallback_reference_span (frames : List (List ℚ)) (min_conf : ℚ)
    (hval : ∀ f ∈ frames, 54 ≤ f.length)
    (hsh : shoulderList frames min_conf = [])
    (hhip : 2 ≤ (hipList frames min_conf).length) :
    derive_motion_constants frames min_conf = .ok (deriveFrom (hipList frames min_conf) []) ∧
    (deriveFrom (hipList frames min_conf) []).REFERENCE_BODY_SPAN_PX =
      round2 (clamp (pymedian
        ((List.range ((hipList frames min_conf).map Prod.snd).length).map
          (fun i => |((hipList frames min_conf).map Prod.snd).getD i 0 -
            ((hipList frames min_conf).map Prod.snd).getD
              (min i (((hipList frames min_conf).map Prod.snd).length - 1)) 0|)) 80) 40 240) := by
  constructor
  · rw [derive_eq_of_valid frames min_conf hval, if_neg (by omega), hsh]
  · rfl

theorem hipList_noShoulder : hipList noShoulderFrames (1/5) = [(100, 400), (130, 420)] := by
  simp only [hipList, noShoulderFrames, List.filterMap_cons, List.filterMap_nil,
    hipMidOf_eq (1/5) _ _ _ (part_test_l_hip 100 400 1 0 0 0) (part_test_r_hip 100 400 1 0 0 0),
    hipMidOf_eq (1/5) _ _ _ (part_test_l_hip 130 420 1 0 0 0) (part_test_r_hip 130 420 1 0 0 0)]
  norm_num [midpoint]

theorem shoulderList_noShoulder : shoulderList noShoulderFrames (1/5) = [] := by
  simp only [shoulderList, noShoulderFrames, List.filterMap_cons, List.filterMap_nil,
    shoulderMidOf_eq (1/5) _ _ _ (part_test_l_shoulder 100 400 1 0 0 0)
      (part_test_r_shoulder 100 400 1 0 0 0),
    shoulderMidOf_eq (1/5) _ _ _ (part_test_l_shoulder 130 420 1 0 0 0)
      (part_test_r_shoulder 130 420 1 0 0 0)]
  norm_num [midpoint]

/-- Witness for C8 at frames whose shoulders all have confidence 0. -/
theorem shoulder_fallback_reference_span_witness :
    derive_motion_constants noShoulderFrames (1/5) =
      .ok (deriveFrom (hipList noShoulderFrames (1/5)) []) ∧
    (deriveFrom (hipList noShoulderFrames (1/5)) []).REFERENCE_BODY_SPAN_PX =
      round2 (clamp (pymedian
        ((List.range ((hipList noShoulderFrames (1/5)).map Prod.snd).length).map
          (fun i => |((hipList noShoulderFrames (1/5)).map Prod.snd).getD i 0 -
            ((hipList noShoulderFrames (1/5)).map Prod.snd).getD
              (min i (((hipList noShoulderFrames (1/5)).map Prod.snd).length - 1)) 0|)) 80)
        40 240) :=
  shoulder_fallback_reference_span noShoulderFrames (1/5) (by decide)
    shoulderList_noShoulder (by rw [hipList_noShoulder]; norm_num)

/-! ## Claims C3 and C5: frame ingestion -/

/-- Counterexample to C3 as stated: `_load_frames` is not raise-free.  An
item whose `pose_keypoints_2d` list is shape-valid (54 elements) but holds
non-numeric elements (JSON `null`s) reaches the `float(v)` coercion, which
raises — the item is not silently dropped. -/
theorem ingestion_error_on_nonnumeric : load_frames nullElementsPayload = .error () := rfl

/-- A retained raw keypoint array passed the length gate. -/
theorem rawKeypointsArray_length (v : JVal) (a : List JVal)
    (h : rawKeypointsArray v = some a) : 54 ≤ a.length := by
  have h54 : COCO_PARTS.length * 3 = 54 := by decide
  unfold rawKeypointsArray at h
  split at h
  · exact absurd h (by simp)
  · exact absurd h (by simp)
  · split at h
    · split at h
      · exact absurd h (by simp)
      · injection h with h
        subst h
        omega
    · exact absurd h (by simp)

/-- Element-wise `float` coercion preserves length. -/
theorem coerceFloats_length : ∀ (l : List JVal) (fs : List ℚ),
    coerceFloats l = some fs → fs.length = l.length
  | [], fs, h => by
    unfold coerceFloats at h
    injection h with h
    rw [← h]
    rfl
  | v :: rest, fs, h => by
    unfold coerceFloats at h
    cases hv : pyFloat v with
    | none => rw [hv] at h; exact absurd h (by simp)
    | some q =>
      cases hr : coerceFloats rest with
      | none => rw [hv, hr] at h; exact absurd h (by simp)
      | some qs =>
        rw [hv, hr] at h
        injection h with h
        rw [← h]
        simp [coerceFloats_length rest qs hr]

theorem extract_some_length (v : JVal) (fs : List ℚ)
    (h : extract_keypoints_array v = .ok (some fs)) : 54 ≤ fs.length := by
  unfold extract_keypoints_array at h
  cases hraw : rawKeypointsArray v with
  | none => rw [hraw] at h; exact absurd h (by simp)
  | some a =>
    rw [hraw] at h
    dsimp only at h
    cases hc : coerceFloats a with
    | none => rw [hc] at h; exact absurd h (by simp)
    | some fs2 =>
      rw [hc] at h
      injection h with h
      injection h with h
      rw [← h, coerceFloats_length a fs2 hc]
      exact rawKeypointsArray_length v a hraw

theorem load_frames_aux_length : ∀ (items : List JVal) (l : List (List ℚ)),
    load_frames_aux items = .ok l →
    (∀ f ∈ l, 54 ≤ f.length) ∧ l.length ≤ items.length
  | [], l, h => by
    unfold load_frames_aux at h
    injection h with h
    subst h
    exact ⟨by simp, by simp⟩
  | it :: rest, l, h => by
    unfold load_frames_aux at h
    cases hext : extract_keypoints_array it with
    | error e => rw [hext] at h; exact absurd h (by simp)
    | ok o =>
      rw [hext] at h
      cases o with
      | none =>
        have ih := load_frames_aux_length rest l h
        exact ⟨ih.1, by simpa using Nat.le_succ_of_le ih.2⟩
      | some fr =>
        dsimp only at h
        cases haux : load_frames_aux rest with
        | error e => rw [haux] at h; exact absurd h (by simp)
        | ok tl =>
          rw [haux] at h
          have ih := load_frames_aux_length rest tl haux
          have hfr : 54 ≤ fr.length := extract_some_length it fr hext
          cases fr with
          | nil =>
            dsimp only at h
            injection h with h
            subst h
            exact ⟨ih.1, by simpa using Nat.le_succ_of_le ih.2⟩
          | cons f0 ftl =>
            dsimp only at h
            injection h with h
            subst h
            refine ⟨?_, by simpa using ih.2⟩
            intro f hf
            rcases List.mem_cons.mp hf with rfl | hf2
            · exact hfr
            · exact ih.1 f hf2

theorem load_frames_aux_ok : ∀ (items : List JVal),
    (∀ it ∈ items, ∀ a, rawKeypointsArray it = some a → (coerceFloats a).isSome) →
    load_frames_aux items =
      .ok (items.filterMap (fun it => (rawKeypointsArray it).bind coerceFloats))
  | [], _ => rfl
  | it :: rest, hsafe => by
    have hrest := load_frames_aux_ok rest
      (fun g hg a ha => hsafe g (List.mem_cons_of_mem it hg) a ha)
    cases hraw : rawKeypointsArray it with
    | none =>
      have hext : extract_keypoints_array it = .ok none := by
        unfold extract_keypoints_array
        rw [hraw]
      simp only [load_frames_aux, hext, hrest, List.filterMap_cons, hraw, Option.none_bind]
    | some a =>
      obtain ⟨fs, hfs⟩ := Option.isSome_iff_exists.mp
        (hsafe it (List.mem_cons_self it rest) a hraw)
      have hext : extract_keypoints_array it = .ok (some fs) := by
        unfold extract_keypoints_array
        rw [hraw]
        dsimp only
        rw [hfs]
      have hlen : 54 ≤ a.length := rawKeypointsArray_length it a hraw
      have hfs_len : fs.length = a.length := coerceFloats_length a fs hfs
      cases fs with
      | nil => simp at hfs_len; omega
      | cons f0 ftl =>
        simp only [load_frames_aux, hext, hrest, List.filterMap_cons, hraw,
          Option.some_bind, hfs]

/-- C3 (amended): frame ingestion raises no error provided every item whose
person record exposes a shape-valid `pose_keypoints_2d` list (a list of at
least 54 elements) holds only float-coercible elements; under that proviso
every other malformed item — wrong shape, keypoint array absent, too short,
or of the wrong type — is silently dropped and contributes nothing: the
result is exactly the per-item extraction `filterMap`.  (Without the
proviso the claim is false: a shape-valid array containing a non-numeric
element makes `float(v)` raise, see the counterexample.) -/
theorem ingestion_ok_of_coercible (payload : JVal)
    (hsafe : ∀ it ∈ items_of payload, ∀ a, rawKeypointsArray it = some a →
      (coerceFloats a).isSome) :
    load_frames payload =
      .ok ((items_of payload).filterMap
        (fun it => (rawKeypointsArray it).bind coerceFloats)) :=
  load_frames_aux_ok (items_of payload) hsafe

/-- Witness for the amended C3 at a payload mixing one well-formed item and
one malformed (dropped) item. -/
theorem ingestion_ok_of_coercible_witness :
    load_frames mixedPayload =
      .ok ((items_of mixedPayload).filterMap
        (fun it => (rawKeypointsArray it).bind coerceFloats)) :=
  ingestion_ok_of_coercible mixedPayload (by
    intro it hit a ha
    simp only [mixedPayload, items_of] at hit
    rcases List.mem_cons.mp hit with h1 | h2
    · subst h1
      rw [show rawKeypointsArray
          (JVal.obj [("pose_keypoints_2d", .arr (List.replicate 54 (.num 1)))]) =
          some (List.replicate 54 (.num 1)) from rfl] at ha
      injection ha with ha
      rw [← ha]
      rfl
    · rcases List.mem_cons.mp h2 with h3 | h4
      · subst h3
        rw [show rawKeypointsArray JVal.null = none from rfl] at ha
        exact Option.noConfusion ha
      · exact absurd h4 (List.not_mem_nil it))

/-- Counterexample to C5 as stated: a retained input array of 55 elements
yields an output frame of 55 floats, not exactly `len(COCO_PARTS) * 3 = 54`
— ingestion checks only the lower bound and does not truncate. -/
theorem ingestion_keeps_long_frames :
    load_frames longFramePayload = .ok [List.replicate 55 (1:ℚ)] ∧
    (List.replicate 55 (1:ℚ)).length ≠ 54 := ⟨rfl, by decide⟩

/-- C5 (amended): every frame in the output of ingestion has length at least
`len(COCO_PARTS) * 3 = 54` (not exactly 54: longer retained arrays pass
through untruncated), and the output list length is at most the input item
count. -/
theorem ingested_frames_length (payload : JVal) (l : List (List ℚ))
    (h : load_frames payload = .ok l) :
    (∀ f ∈ l, 54 ≤ f.length) ∧ l.length ≤ (items_of payload).length :=
  load_frames_aux_length (items_of payload) l h

/-- Witness for the amended C5 at a single-item payload. -/
theorem ingested_frames_length_witness :
    (∀ f ∈ [List.replicate 54 (1:ℚ)], 54 ≤ f.length) ∧
    ([List.replicate 54 (1:ℚ)]).length ≤
      (items_of (.arr [.obj [("pose_keypoints_2d", .arr (List.replicate 54 (.num 1)))]])).length :=
  ingested_frames_length (.arr [.obj [("pose_keypoints_2d", .arr (List.replicate 54 (.num 1)))]])
    [List.replicate 54 (1:ℚ)] rfl

end Pose
